import Mathlib

/-!
Shallow embedding of the two gateway classes of the fitness-tracking
repository (`backend/google_services/maps.py` and
`backend/google_services/sheets.py`).

Vendor calls (the googlemaps client, raw HTTP GETs, and the Sheets API) are
modelled as explicit oracle parameters: a successful vendor response is
`Except.ok` of the reshaped JSON payload and a raised vendor exception is
`Except.error` carrying the message.  Python exceptions raised and re-raised
by a method are the `Except.error` results of the Lean function; methods that
swallow exceptions return plain values.  Effectful methods additionally
return the list of outbound requests they issued, in order.
-/

/-- Exception messages, as carried by Python exceptions. -/
abbrev Err := String

namespace Maps

/-- The shape this layer extracts from one element of a nearby-search JSON
`results` array: the optional fields read via `result.get(...)` in
`find_running_trails` and `_find_places_nearby`. -/
structure PlaceJson where
  name : Option String
  vicinity : Option String
  rating : Option String
  place_id : Option String
  location : Option (Rat × Rat)
deriving Repr, DecidableEq

/-- The dictionary both nearby-search methods build per place:
`{'name', 'address', 'rating', 'place_id', 'location'}` with the defaults
`'Unknown'`, `'No address'`, `'No rating'`, `''`, `{}`. -/
structure Place where
  name : String
  address : String
  rating : String
  place_id : String
  location : Option (Rat × Rat)
deriving Repr, DecidableEq

/-- Reshaping of one JSON place into the returned dictionary, as done by the
loop bodies of `find_running_trails` and `_find_places_nearby`. -/
def shapePlace (r : PlaceJson) : Place :=
  { name := r.name.getD "Unknown"
    address := r.vicinity.getD "No address"
    rating := r.rating.getD "No rating"
    place_id := r.place_id.getD ""
    location := r.location }

/-- The query parameters of the raw nearby-search HTTP GET issued by
`_find_places_nearby`: note the `type` key is the literal `"gym"`;
the `type_filter` argument is not consulted when building `params`. -/
structure NearbyRequest where
  lat : Rat
  lng : Rat
  radius : Nat
  typ : String
deriving Repr, DecidableEq

/-- The `params` dictionary `_find_places_nearby` builds for its HTTP GET:
the `type` key is the literal string `"gym"`; the `type_filter` argument is
never consulted. -/
def findPlacesNearbyParams (lat lng : Rat) (type_filter : Option (List String))
    (radius : Nat) : NearbyRequest :=
  { lat := lat, lng := lng, radius := radius, typ := "gym" }

/-- Embeds `GoogleMapsService._find_places_nearby(lat, lng, type_filter, radius)`.
`http` is the vendor oracle for the nearby-search endpoint (an `Except.error`
covers a `requests` exception, a `raise_for_status` failure, or a JSON
decoding failure).  The `except` clause returns `[]`. -/
def find_places_nearby (http : NearbyRequest → Except Err (List PlaceJson))
    (lat lng : Rat) (type_filter : Option (List String)) (radius : Nat) :
    List Place :=
  match http (findPlacesNearbyParams lat lng type_filter radius) with
  | Except.ok results => results.map shapePlace
  | Except.error _ => []

/-- Embeds `GoogleMapsService.get_distance_matrix(origins, destinations, mode)`:
forwards to `client.distance_matrix` and re-raises any exception
(`except Exception as e: logger.error(...); raise`).  `Dict` stands for the
un-inspected vendor payload, which this method never reshapes. -/
def get_distance_matrix {Dict : Type} (fetch : Except Err Dict) :
    Except Err Dict :=
  match fetch with
  | Except.ok d => Except.ok d
  | Except.error e => Except.error e

/-- Embeds `GoogleMapsService.find_running_trails(location, radius)`: raw HTTP GET
with keyword `"running trail"`; reshapes `results` like
`_find_places_nearby`; the `except` clause returns `[]`. -/
def find_running_trails (http : Except Err (List PlaceJson)) : List Place :=
  match http with
  | Except.ok results => results.map shapePlace
  | Except.error _ => []

/-- The input accepted by `find_nearby_workout_locations`: a free-text
address string, a mapping (with the values `dict.get` yields for the keys
`'lat'` and `'lng'`), or anything else. -/
inductive LocInput where
  | str (address : String)
  | dict (lat lng : Option Rat)
  | other
deriving Repr, DecidableEq

/-- One outbound call of the workout-locations path, in issue order. -/
inductive MapsCall where
  | geocode (address : String)
  | nearby (req : NearbyRequest)
deriving Repr, DecidableEq

/-- Embeds `GoogleMapsService.find_nearby_workout_locations(location_or_address)`.
`geocode` is the oracle behind `geocode_address` (which raises — `.error` —
when the client fails or returns no result).  Returns the issued calls and
the result; every exception is caught and yields `[]`. -/
def find_nearby_workout_locations
    (geocode : String → Except Err (Rat × Rat))
    (http : NearbyRequest → Except Err (List PlaceJson))
    (input : LocInput) : List MapsCall × List Place :=
  match input with
  | LocInput.str address =>
    match geocode address with
    | Except.error _ => ([MapsCall.geocode address], [])
    | Except.ok (lat, lng) =>
      ([MapsCall.geocode address,
        MapsCall.nearby (findPlacesNearbyParams lat lng (some ["gym", "fitness"]) 50000)],
       find_places_nearby http lat lng (some ["gym", "fitness"]) 50000)
  | LocInput.dict lat? lng? =>
    match lat?, lng? with
    | some lat, some lng =>
      ([MapsCall.nearby (findPlacesNearbyParams lat lng (some ["gym", "fitness"]) 50000)],
       find_places_nearby http lat lng (some ["gym", "fitness"]) 50000)
    | _, _ => ([], [])
  | LocInput.other => ([], [])

/-- The fields `get_directions` reads from one step of a route's first leg. -/
structure StepJson where
  html_instructions : String
deriving Repr, DecidableEq

/-- A `{'text': ...}` field as found under `distance` and `duration`. -/
structure TextField where
  text : String
deriving Repr, DecidableEq

/-- The fields `get_directions` reads from a leg. -/
structure LegJson where
  steps : List StepJson
  distance : TextField
  duration : TextField
deriving Repr, DecidableEq

/-- One route of the directions response; only `legs` is consulted. -/
structure RouteJson where
  legs : List LegJson
deriving Repr, DecidableEq

/-- The per-route dictionary built by the first loop of `get_directions`:
`{'distance': ..., 'duration': ..., 'steps': [...]}`. -/
structure FmtRoute where
  distance : String
  duration : String
  steps : List String
deriving Repr, DecidableEq

/-- The body of the first loop of `get_directions`: `route['legs'][0]` raises
`IndexError` when `legs` is empty (caught by the method's `except` clause). -/
def extractRoute (r : RouteJson) : Except Err FmtRoute :=
  match r.legs with
  | [] => Except.error "list index out of range"
  | leg :: _ =>
    Except.ok
      { distance := leg.distance.text
        duration := leg.duration.text
        steps := leg.steps.map (fun s => s.html_instructions) }

/-- The response lines the second loop of `get_directions` appends for the
route at (zero-based) position `i`; `enumerate(directions, 1)` makes the
printed number `i + 1`. -/
def routeLines (i : Nat) (r : FmtRoute) : List String :=
  ("Route " ++ toString (i + 1) ++ ":") ::
  ("Distance: " ++ r.distance) ::
  ("Duration: " ++ r.duration) ::
  "Steps:" ::
  (r.steps.map (fun s => "- " ++ s) ++ [""])

/-- Embeds `GoogleMapsService.get_directions(origin, destination)`: `fetch` is the
outcome of the `directions_service` call.  Any exception (vendor failure or
`IndexError` while reshaping) is caught and turned into an error string. -/
def get_directions (fetch : Except Err (List RouteJson)) : String :=
  match fetch with
  | Except.error e => "Error getting directions: " ++ e
  | Except.ok result =>
    if result.isEmpty then "No directions found."
    else
      match result.mapM extractRoute with
      | Except.error e => "Error getting directions: " ++ e
      | Except.ok directions =>
        "\n".intercalate ((directions.enum.map (fun p => routeLines p.1 p.2)).flatten)

end Maps

namespace Sheets

/-- The `gridProperties` of a sheet. -/
structure GridProps where
  rowCount : Nat
  columnCount : Nat
deriving Repr, DecidableEq

/-- The `properties` of one sheet in a spreadsheet body. -/
structure SheetProps where
  title : String
  grid : GridProps
deriving Repr, DecidableEq

/-- The spreadsheet body passed to `spreadsheets().create`. -/
structure SpreadsheetBody where
  title : String
  sheets : List SheetProps
deriving Repr, DecidableEq

/-- One structural request of a `batchUpdate` body (only `addSheet` is used
by this code). -/
inductive BatchReq where
  | addSheet (title : String) (grid : GridProps)
deriving Repr, DecidableEq

/-- One outbound Sheets API call, in issue order.  `update` carries the
`values().update` arguments, `appendV` the `values().append` arguments,
`valuesGet` the `values().get` arguments. -/
inductive SheetsCall where
  | create (body : SpreadsheetBody)
  | update (id range : String) (values : List (List String))
  | appendV (id range : String) (values : List (List String))
  | batch (id : String) (reqs : List BatchReq)
  | valuesGet (id range : String)
deriving Repr, DecidableEq

/-- The spreadsheet body built by `create_workout_tracker`. -/
def workoutTrackerBody (title : String) : SpreadsheetBody :=
  { title := title
    sheets :=
      [{ title := "Workouts", grid := { rowCount := 1000, columnCount := 10 } },
       { title := "Nutrition", grid := { rowCount := 1000, columnCount := 10 } }] }

/-- The header row written to `Workouts!A1:E1`. -/
def workout_headers : List (List String) :=
  [["Date", "Workout Type", "Duration", "Calories Burned", "Notes"]]

/-- The header row written to `Nutrition!A1:G1`. -/
def nutrition_headers : List (List String) :=
  [["Date", "Meal", "Calories", "Protein (g)", "Carbs (g)", "Fat (g)", "Notes"]]

/-- Embeds `GoogleSheetsService.create_workout_tracker(title)`.  `createO` is the
`spreadsheets().create` oracle yielding the new spreadsheet id; `updO` is
the `values().update` oracle.  Every exception is re-raised. -/
def create_workout_tracker
    (createO : SpreadsheetBody → Except Err String)
    (updO : String → String → List (List String) → Except Err Unit)
    (title : String) : List SheetsCall × Except Err String :=
  let body := workoutTrackerBody title
  match createO body with
  | Except.error e => ([SheetsCall.create body], Except.error e)
  | Except.ok sid =>
    match updO sid "Workouts!A1:E1" workout_headers with
    | Except.error e =>
      ([SheetsCall.create body, SheetsCall.update sid "Workouts!A1:E1" workout_headers],
       Except.error e)
    | Except.ok _ =>
      match updO sid "Nutrition!A1:G1" nutrition_headers with
      | Except.error e =>
        ([SheetsCall.create body,
          SheetsCall.update sid "Workouts!A1:E1" workout_headers,
          SheetsCall.update sid "Nutrition!A1:G1" nutrition_headers],
         Except.error e)
      | Except.ok _ =>
        ([SheetsCall.create body,
          SheetsCall.update sid "Workouts!A1:E1" workout_headers,
          SheetsCall.update sid "Nutrition!A1:G1" nutrition_headers],
         Except.ok sid)

/-- Embeds `GoogleSheetsService.add_workout_entry`: appends one row to
`Workouts!A:E` and re-raises failures. -/
def add_workout_entry
    (appendO : String → String → List (List String) → Except Err Unit)
    (spreadsheet_id date workout_type duration calories notes : String) :
    List SheetsCall × Except Err Unit :=
  ([SheetsCall.appendV spreadsheet_id "Workouts!A:E"
      [[date, workout_type, duration, calories, notes]]],
   appendO spreadsheet_id "Workouts!A:E" [[date, workout_type, duration, calories, notes]])

/-- Embeds `GoogleSheetsService.add_nutrition_entry`: appends one row to
`Nutrition!A:G` and re-raises failures. -/
def add_nutrition_entry
    (appendO : String → String → List (List String) → Except Err Unit)
    (spreadsheet_id date meal calories protein carbs fat notes : String) :
    List SheetsCall × Except Err Unit :=
  ([SheetsCall.appendV spreadsheet_id "Nutrition!A:G"
      [[date, meal, calories, protein, carbs, fat, notes]]],
   appendO spreadsheet_id "Nutrition!A:G" [[date, meal, calories, protein, carbs, fat, notes]])

/-- Embeds `GoogleSheetsService.get_workout_history(spreadsheet_id)`: a
`values().get` on the fixed range `Workout History!A:Z`; the oracle yields
the payload's optional `values` key (`result.get('values', [])` defaults to
`[]`); failures are re-raised. -/
def get_workout_history
    (fetch : String → String → Except Err (Option (List (List String))))
    (spreadsheet_id : String) : List SheetsCall × Except Err (List (List String)) :=
  ([SheetsCall.valuesGet spreadsheet_id "Workout History!A:Z"],
   match fetch spreadsheet_id "Workout History!A:Z" with
   | Except.ok payload => Except.ok (payload.getD [])
   | Except.error e => Except.error e)

/-- Embeds `GoogleSheetsService.get_nutrition_history(spreadsheet_id)`: same shape
as `get_workout_history` on the fixed range `Nutrition History!A:Z`. -/
def get_nutrition_history
    (fetch : String → String → Except Err (Option (List (List String))))
    (spreadsheet_id : String) : List SheetsCall × Except Err (List (List String)) :=
  ([SheetsCall.valuesGet spreadsheet_id "Nutrition History!A:Z"],
   match fetch spreadsheet_id "Nutrition History!A:Z" with
   | Except.ok payload => Except.ok (payload.getD [])
   | Except.error e => Except.error e)

/-- Python `str.isdigit()` for ASCII content: non-empty and all characters
decimal digits (so `"12.5"`, `"n/a"`, `"-3"`, `""` are all `false`). -/
def pyIsDigit (s : String) : Bool :=
  !s.isEmpty && s.data.all Char.isDigit

/-- Python `float(s)` on a string passing `isdigit`: the denoted natural
number, as a rational.  (Only applied under a `pyIsDigit` guard, where
`float` conversion is exact.) -/
def floatOfDigits (s : String) : Rat :=
  ((s.toNat?).getD 0 : Nat)

/-- A cell of a history row; `w[i]` for rows matching the fixed column
schema.  Modelled total via `getD` (the empty-string default never passes
`pyIsDigit`); the summary theorems assume rows are at least as long as the
schema requires, where this coincides with Python indexing. -/
def cellAt (row : List String) (i : Nat) : String :=
  row.getD i ""

/-- Embeds `sum(float(w[i]) for w in rows if w[i].isdigit())` — the aggregation
expression shape used five times in `create_workout_summary`. -/
def sumDigitField (rows : List (List String)) (i : Nat) : Rat :=
  ((rows.filter (fun w => pyIsDigit (cellAt w i))).map
    (fun w => floatOfDigits (cellAt w i))).sum

/-- The workout-side quantities computed by `create_workout_summary` from a
workout history (source lines 339-343). -/
structure WorkoutStats where
  total_workouts : Nat
  total_duration : Rat
  total_calories : Rat
  avg_duration : Rat
  avg_calories : Rat
deriving Repr, DecidableEq

/-- The nutrition-side quantities computed by `create_workout_summary` from
a nutrition history (source lines 347-351). -/
structure NutritionStats where
  total_meals : Nat
  total_nutrition_calories : Rat
  avg_protein : Rat
  avg_carbs : Rat
  avg_fat : Rat
deriving Repr, DecidableEq

/-- Workout aggregation of `create_workout_summary`, as a function of the
workout history the (intended) `get_workout_history` read returns. -/
def workoutStats (workouts : List (List String)) : WorkoutStats :=
  let total_workouts := workouts.length
  let total_duration := sumDigitField workouts 2
  let total_calories := sumDigitField workouts 3
  { total_workouts := total_workouts
    total_duration := total_duration
    total_calories := total_calories
    avg_duration := if total_workouts > 0 then total_duration / (total_workouts : Rat) else 0
    avg_calories := if total_workouts > 0 then total_calories / (total_workouts : Rat) else 0 }

/-- Nutrition aggregation of `create_workout_summary`, as a function of the
nutrition history the (intended) `get_nutrition_history` read returns. -/
def nutritionStats (nutrition : List (List String)) : NutritionStats :=
  let total_meals := nutrition.length
  { total_meals := total_meals
    total_nutrition_calories := sumDigitField nutrition 2
    avg_protein :=
      if total_meals > 0 then sumDigitField nutrition 3 / (total_meals : Rat) else 0
    avg_carbs :=
      if total_meals > 0 then sumDigitField nutrition 4 / (total_meals : Rat) else 0
    avg_fat :=
      if total_meals > 0 then sumDigitField nutrition 5 / (total_meals : Rat) else 0 }

/-- A Python value that is either a list of rows or a coroutine object —
what a call to an `async def` method yields when it is not awaited. -/
inductive PyList where
  | list (rows : List (List String))
  | coroutine
deriving Repr, DecidableEq

/-- The message of the `TypeError` raised by `len` on a coroutine object. -/
def coroutineLenErr : Err :=
  "TypeError: object of type coroutine has no len"

/-- Python `len(x)`: defined on lists, raises `TypeError` on a coroutine. -/
def pyLen : PyList → Except Err Nat
  | PyList.list rows => Except.ok rows.length
  | PyList.coroutine => Except.error coroutineLenErr

/-- The `addSheet` request of `create_workout_summary`'s `batch_update`. -/
def summaryAddSheetReq : BatchReq :=
  BatchReq.addSheet "Summary" { rowCount := 100, columnCount := 10 }

/-- The header labels written to `Summary!A1:E4`. -/
def summary_headers : List (List String) :=
  [["Workout Summary"],
   ["Total Workouts", "Total Duration", "Total Calories Burned",
    "Average Duration", "Average Calories"],
   ["Nutrition Summary"],
   ["Total Meals", "Total Calories", "Average Protein", "Average Carbs", "Average Fat"]]

/-- Embeds `GoogleSheetsService.create_workout_summary(spreadsheet_id)` (a plain
`def`, not `async`).  `batch` is the `batchUpdate` oracle, `upd` the
`values().update` oracle.  After the sheet creation and the header write,
`workouts = self.get_workout_history(spreadsheet_id)` calls an `async`
method without `await`, so `workouts` is a coroutine object (the read body
never runs and no `values().get` request is issued); `len(workouts)` then
raises `TypeError`, caught by the `except` clause and re-raised, so the
aggregation (embedded as `workoutStats`/`nutritionStats`) and the final
`Summary!A2:E4` write of source lines 340-360 are unreachable. -/
def create_workout_summary
    (batch : String → List BatchReq → Except Err Unit)
    (upd : String → String → List (List String) → Except Err Unit)
    (spreadsheet_id : String) : List SheetsCall × Except Err Unit :=
  let t1 := [SheetsCall.batch spreadsheet_id [summaryAddSheetReq]]
  match batch spreadsheet_id [summaryAddSheetReq] with
  | Except.error e => (t1, Except.error e)
  | Except.ok _ =>
    let t2 := t1 ++ [SheetsCall.update spreadsheet_id "Summary!A1:E4" summary_headers]
    match upd spreadsheet_id "Summary!A1:E4" summary_headers with
    | Except.error e => (t2, Except.error e)
    | Except.ok _ =>
      let workouts : PyList := PyList.coroutine
      match pyLen workouts with
      | Except.error e => (t2, Except.error e)
      | Except.ok _total_workouts =>
        -- Unreachable: `workouts` is a coroutine, so `pyLen` errored above.
        (t2, Except.error "unreachable")

/-- Python truthiness of the optional `query` argument: `if query:` is
false for `None` and for the empty string. -/
def pyTruthy : Option String → Bool
  | none => false
  | some q => !q.isEmpty

/-- Substring test on character lists (`needle` occurs contiguously in the
haystack), the semantics of Python's `in` on strings. -/
def containsChars (needle : List Char) : List Char → Bool
  | [] => needle.isEmpty
  | c :: rest => needle.isPrefixOf (c :: rest) || containsChars needle rest

/-- Python `needle in hay` for strings. -/
def pyInStr (needle hay : String) : Bool :=
  containsChars needle.data hay.data

/-- The row filter of `get_sheet_data`:
`any(query.lower() in str(cell).lower() for cell in row)` (cells are
modelled as strings, where `str` is the identity). -/
def rowMatches (query : String) (row : List String) : Bool :=
  row.any (fun cell => pyInStr query.toLower cell.toLower)

/-- Embeds `GoogleSheetsService.get_sheet_data(spreadsheet_id, range_name, query)`:
reads a range (`fetch` yields the payload's optional `values` key) and, when
`query` is truthy, keeps only the matching rows in order; failures are
re-raised. -/
def get_sheet_data (fetch : Except Err (Option (List (List String))))
    (query : Option String) : Except Err (List (List String)) :=
  match fetch with
  | Except.error e => Except.error e
  | Except.ok payload =>
    let values := payload.getD []
    match query with
    | some q =>
      if !q.isEmpty then Except.ok (values.filter (fun row => rowMatches q row))
      else Except.ok values
    | none => Except.ok values

end Sheets

/-! ## Claim theorems -/

/-- C2: on a vendor failure `get_distance_matrix` propagates the exception
to the caller (its result is the same `Except.error`), whereas
`find_running_trails` catches every exception and returns the empty list;
the two failure behaviours are distinct per method, not unified. -/
theorem distance_matrix_raises_running_trails_swallows :
    ∀ (Dict : Type) (e : Err) (d : Dict),
      Maps.get_distance_matrix (Except.error e : Except Err Dict) = Except.error e ∧
      Maps.get_distance_matrix (Except.ok d) = Except.ok d ∧
      Maps.find_running_trails (Except.error e) = [] := by
  intro Dict e d
  exact ⟨rfl, rfl, rfl⟩

/-- C3: `_find_places_nearby` builds the same request (with type `"gym"`)
and returns the same result for any two values of `type_filter`: its output
is independent of the caller-supplied filter. -/
theorem find_places_nearby_ignores_type_filter :
    ∀ (http : Maps.NearbyRequest → Except Err (List Maps.PlaceJson))
      (lat lng : Rat) (radius : Nat) (tf₁ tf₂ : Option (List String)),
      Maps.findPlacesNearbyParams lat lng tf₁ radius
        = Maps.findPlacesNearbyParams lat lng tf₂ radius ∧
      (Maps.findPlacesNearbyParams lat lng tf₁ radius).typ = "gym" ∧
      Maps.find_places_nearby http lat lng tf₁ radius
        = Maps.find_places_nearby http lat lng tf₂ radius := by
  intro http lat lng radius tf₁ tf₂
  exact ⟨rfl, rfl, rfl⟩

/-- C5: `find_nearby_workout_locations` given a mapping with `lat` and
`lng` present issues no geocoding call before the nearby search; given a
string it issues exactly one geocoding call (for that address), and on
success the nearby search uses the returned coordinates. -/
theorem find_nearby_workout_locations_geocode_usage :
    ∀ (geocode : String → Except Err (Rat × Rat))
      (http : Maps.NearbyRequest → Except Err (List Maps.PlaceJson))
      (lat lng : Rat) (address : String),
      (Maps.find_nearby_workout_locations geocode http
          (Maps.LocInput.dict (some lat) (some lng))).1
        = [Maps.MapsCall.nearby
            (Maps.findPlacesNearbyParams lat lng (some ["gym", "fitness"]) 50000)] ∧
      (∀ e, geocode address = Except.error e →
        (Maps.find_nearby_workout_locations geocode http (Maps.LocInput.str address)).1
          = [Maps.MapsCall.geocode address]) ∧
      (∀ la ln, geocode address = Except.ok (la, ln) →
        Maps.find_nearby_workout_locations geocode http (Maps.LocInput.str address)
          = ([Maps.MapsCall.geocode address,
              Maps.MapsCall.nearby
                (Maps.findPlacesNearbyParams la ln (some ["gym", "fitness"]) 50000)],
             Maps.find_places_nearby http la ln (some ["gym", "fitness"]) 50000)) := by
  intro geocode http lat lng address
  refine ⟨rfl, ?_, ?_⟩
  · intro e h
    simp [Maps.find_nearby_workout_locations, h]
  · intro la ln h
    simp [Maps.find_nearby_workout_locations, h]

/-- Witness for C5 at concrete inputs: a successful geocode of a string
address yields exactly one geocode call followed by the nearby search at
the returned coordinates. -/
theorem find_nearby_workout_locations_geocode_usage_witness :
    Maps.find_nearby_workout_locations
        (fun _ => Except.ok ((37 : Rat), (-122 : Rat)))
        (fun _ => Except.ok [])
        (Maps.LocInput.str "1 Main St")
      = ([Maps.MapsCall.geocode "1 Main St",
          Maps.MapsCall.nearby
            (Maps.findPlacesNearbyParams 37 (-122) (some ["gym", "fitness"]) 50000)],
         Maps.find_places_nearby (fun _ => Except.ok []) 37 (-122)
           (some ["gym", "fitness"]) 50000) :=
  (find_nearby_workout_locations_geocode_usage
      (fun _ => Except.ok ((37 : Rat), (-122 : Rat)))
      (fun _ => Except.ok []) 0 0 "1 Main St").2.2 37 (-122) rfl

/-- C6: `find_nearby_workout_locations` never propagates an exception: on
an input that is neither string nor mapping, a mapping missing `lat` or
`lng`, a geocoding failure, or a vendor error in the nearby search, it
returns the empty list. -/
theorem find_nearby_workout_locations_swallows_failures :
    ∀ (geocode : String → Except Err (Rat × Rat))
      (http : Maps.NearbyRequest → Except Err (List Maps.PlaceJson)),
      (Maps.find_nearby_workout_locations geocode http Maps.LocInput.other).2 = [] ∧
      (∀ lngOpt, (Maps.find_nearby_workout_locations geocode http
          (Maps.LocInput.dict none lngOpt)).2 = []) ∧
      (∀ latOpt, (Maps.find_nearby_workout_locations geocode http
          (Maps.LocInput.dict latOpt none)).2 = []) ∧
      (∀ address e, geocode address = Except.error e →
        (Maps.find_nearby_workout_locations geocode http (Maps.LocInput.str address)).2 = []) ∧
      (∀ lat lng e,
        http (Maps.findPlacesNearbyParams lat lng (some ["gym", "fitness"]) 50000)
            = Except.error e →
        (Maps.find_nearby_workout_locations geocode http
            (Maps.LocInput.dict (some lat) (some lng))).2 = []) ∧
      (∀ address la ln e, geocode address = Except.ok (la, ln) →
        http (Maps.findPlacesNearbyParams la ln (some ["gym", "fitness"]) 50000)
            = Except.error e →
        (Maps.find_nearby_workout_locations geocode http (Maps.LocInput.str address)).2 = []) := by
  intro geocode http
  refine ⟨rfl, ?_, ?_, ?_, ?_, ?_⟩
  · intro lngOpt
    cases lngOpt <;> rfl
  · intro latOpt
    cases latOpt <;> rfl
  · intro address e h
    simp [Maps.find_nearby_workout_locations, h]
  · intro lat lng e h
    simp [Maps.find_nearby_workout_locations, Maps.find_places_nearby, h]
  · intro address la ln e hg hh
    simp [Maps.find_nearby_workout_locations, Maps.find_places_nearby, hg, hh]

/-- Witness for C6 at concrete inputs: an unresolvable address yields `[]`. -/
theorem find_nearby_workout_locations_swallows_failures_witness :
    (Maps.find_nearby_workout_locations
        (fun _ => Except.error "geocode failed")
        (fun _ => Except.ok [])
        (Maps.LocInput.str "nowhere")).2 = [] :=
  (find_nearby_workout_locations_swallows_failures
      (fun _ => Except.error "geocode failed")
      (fun _ => Except.ok [])).2.2.2.1 "nowhere" "geocode failed" rfl

/-- C7 counterexample: with the supplied query string `""` and a fetched
range containing an empty row, `get_sheet_data` returns that row (the
`if query:` truthiness test treats `""` as no filter), although no cell of
the empty row contains the query — so the returned rows are not exactly
those in which some cell contains the query. -/
theorem get_sheet_data_empty_query_counterexample :
    Sheets.get_sheet_data (Except.ok (some [([] : List String)])) (some "")
        = Except.ok [([] : List String)] ∧
    Sheets.rowMatches "" ([] : List String) = false := by
  exact ⟨rfl, rfl⟩

/-- C7 (amended): for every fetched range and every supplied non-empty
query string, `get_sheet_data` returns exactly the rows in which at least
one cell contains the query case-insensitively, preserving order (the
filter predicate is `rowMatches`); with no query, or with the empty query
string (which Python truthiness treats as no filter), it returns all rows. -/
theorem get_sheet_data_filters_rows
    (payload : Option (List (List String))) (q : String) (hq : q ≠ "") :
    Sheets.get_sheet_data (Except.ok payload) (some q)
        = Except.ok ((payload.getD []).filter (fun row => Sheets.rowMatches q row)) ∧
    Sheets.get_sheet_data (Except.ok payload) none = Except.ok (payload.getD []) ∧
    Sheets.get_sheet_data (Except.ok payload) (some "") = Except.ok (payload.getD []) := by
  refine ⟨?_, rfl, rfl⟩
  have h : q.isEmpty = false := by
    cases h2 : q.isEmpty
    · rfl
    · exact absurd ((String.isEmpty_iff q).mp h2) hq
  simp [Sheets.get_sheet_data, h]

/-- Witness for C7 at concrete inputs: the query `"run"` keeps exactly the
rows with a cell containing it case-insensitively. -/
theorem get_sheet_data_filters_rows_witness :
    Sheets.get_sheet_data (Except.ok (some [["Running", "30"], ["Swim", "20"]])) (some "run")
        = Except.ok ([["Running", "30"], ["Swim", "20"]].filter
            (fun row => Sheets.rowMatches "run" row)) ∧
    Sheets.get_sheet_data (Except.ok (some [["Running", "30"], ["Swim", "20"]])) none
        = Except.ok [["Running", "30"], ["Swim", "20"]] ∧
    Sheets.get_sheet_data (Except.ok (some [["Running", "30"], ["Swim", "20"]])) (some "")
        = Except.ok [["Running", "30"], ["Swim", "20"]] :=
  get_sheet_data_filters_rows (some [["Running", "30"], ["Swim", "20"]]) "run" (by decide)

/-- C9: `get_workout_history` requests exactly the range
`Workout History!A:Z` and `get_nutrition_history` exactly
`Nutrition History!A:Z`; these sheet names differ from the sheets
`create_workout_tracker` creates (`Workouts`, `Nutrition`) and from the
sheets the add-entry operations append to (`Workouts!A:E`, `Nutrition!A:G`). -/
theorem history_ranges_differ_from_sheet_names :
    ∀ (fetch : String → String → Except Err (Option (List (List String))))
      (appendO : String → String → List (List String) → Except Err Unit)
      (id title date a b c d e f : String),
      (Sheets.get_workout_history fetch id).1
          = [Sheets.SheetsCall.valuesGet id "Workout History!A:Z"] ∧
      (Sheets.get_nutrition_history fetch id).1
          = [Sheets.SheetsCall.valuesGet id "Nutrition History!A:Z"] ∧
      (Sheets.workoutTrackerBody title).sheets.map Sheets.SheetProps.title
          = ["Workouts", "Nutrition"] ∧
      (Sheets.add_workout_entry appendO id date a b c d).1
          = [Sheets.SheetsCall.appendV id "Workouts!A:E" [[date, a, b, c, d]]] ∧
      (Sheets.add_nutrition_entry appendO id date a b c d e f).1
          = [Sheets.SheetsCall.appendV id "Nutrition!A:G" [[date, a, b, c, d, e, f]]] ∧
      ("Workout History" ++ "!A:Z" : String) = "Workout History!A:Z" ∧
      ("Nutrition History" ++ "!A:Z" : String) = "Nutrition History!A:Z" ∧
      ("Workouts" ++ "!A:E" : String) = "Workouts!A:E" ∧
      ("Nutrition" ++ "!A:G" : String) = "Nutrition!A:G" ∧
      ("Workout History" : String) ≠ "Workouts" ∧
      ("Nutrition History" : String) ≠ "Nutrition" := by
  intro fetch appendO id title date a b c d e f
  refine ⟨rfl, rfl, rfl, rfl, rfl, ?_, ?_, ?_, ?_, by decide, by decide⟩
  all_goals decide

/-- C4: when the creation and both header updates succeed,
`create_workout_tracker` creates a spreadsheet with exactly two sheets
`Workouts` and `Nutrition`, each 1000 rows by 10 columns, and writes the
workout header row to `Workouts!A1:E1` and the nutrition header row to
`Nutrition!A1:G1` — and issues nothing else. -/
theorem create_workout_tracker_two_sheets_and_headers
    (createO : Sheets.SpreadsheetBody → Except Err String)
    (updO : String → String → List (List String) → Except Err Unit)
    (title sid : String)
    (hc : createO (Sheets.workoutTrackerBody title) = Except.ok sid)
    (h1 : updO sid "Workouts!A1:E1" Sheets.workout_headers = Except.ok ())
    (h2 : updO sid "Nutrition!A1:G1" Sheets.nutrition_headers = Except.ok ()) :
    Sheets.create_workout_tracker createO updO title =
      ([Sheets.SheetsCall.create
          { title := title
            sheets := [{ title := "Workouts", grid := { rowCount := 1000, columnCount := 10 } },
                       { title := "Nutrition", grid := { rowCount := 1000, columnCount := 10 } }] },
        Sheets.SheetsCall.update sid "Workouts!A1:E1"
          [["Date", "Workout Type", "Duration", "Calories Burned", "Notes"]],
        Sheets.SheetsCall.update sid "Nutrition!A1:G1"
          [["Date", "Meal", "Calories", "Protein (g)", "Carbs (g)", "Fat (g)", "Notes"]]],
       Except.ok sid) := by
  simp only [Sheets.create_workout_tracker, hc, h1, h2]
  rfl

/-- Witness for C4 at concrete oracles that accept every request. -/
theorem create_workout_tracker_two_sheets_and_headers_witness :
    Sheets.create_workout_tracker (fun _ => Except.ok "sid123") (fun _ _ _ => Except.ok ())
        "My Tracker" =
      ([Sheets.SheetsCall.create
          { title := "My Tracker"
            sheets := [{ title := "Workouts", grid := { rowCount := 1000, columnCount := 10 } },
                       { title := "Nutrition", grid := { rowCount := 1000, columnCount := 10 } }] },
        Sheets.SheetsCall.update "sid123" "Workouts!A1:E1"
          [["Date", "Workout Type", "Duration", "Calories Burned", "Notes"]],
        Sheets.SheetsCall.update "sid123" "Nutrition!A1:G1"
          [["Date", "Meal", "Calories", "Protein (g)", "Carbs (g)", "Fat (g)", "Notes"]]],
       Except.ok "sid123") :=
  create_workout_tracker_two_sheets_and_headers
    (fun _ => Except.ok "sid123") (fun _ _ _ => Except.ok ()) "My Tracker" "sid123" rfl rfl rfl

/-- C10: `create_workout_summary` is not atomic on error.  When the
`addSheet` batch update and the header write succeed, it has already issued
exactly those two mutations — the `Summary` sheet creation and the
`Summary!A1:E4` header write — before reading any history data (no
`values().get` request is ever issued, because the unawaited calls to the
async history getters yield coroutine objects), and the `TypeError` raised
by `len` of a coroutine is re-raised to the caller while those two
mutations remain applied; the summary row write to `Summary!A2:E4` never
happens. -/
theorem create_workout_summary_not_atomic
    (batch : String → List Sheets.BatchReq → Except Err Unit)
    (upd : String → String → List (List String) → Except Err Unit)
    (id : String)
    (hb : batch id [Sheets.summaryAddSheetReq] = Except.ok ())
    (hu : upd id "Summary!A1:E4" Sheets.summary_headers = Except.ok ()) :
    Sheets.create_workout_summary batch upd id =
      ([Sheets.SheetsCall.batch id
          [Sheets.BatchReq.addSheet "Summary" { rowCount := 100, columnCount := 10 }],
        Sheets.SheetsCall.update id "Summary!A1:E4" Sheets.summary_headers],
       Except.error Sheets.coroutineLenErr) ∧
    (∀ rows, Sheets.SheetsCall.update id "Summary!A2:E4" rows
        ∉ (Sheets.create_workout_summary batch upd id).1) ∧
    (∀ sid range, Sheets.SheetsCall.valuesGet sid range
        ∉ (Sheets.create_workout_summary batch upd id).1) := by
  have hmain : Sheets.create_workout_summary batch upd id =
      ([Sheets.SheetsCall.batch id
          [Sheets.BatchReq.addSheet "Summary" { rowCount := 100, columnCount := 10 }],
        Sheets.SheetsCall.update id "Summary!A1:E4" Sheets.summary_headers],
       Except.error Sheets.coroutineLenErr) := by
    simp only [Sheets.create_workout_summary, hb, hu]
    rfl
  refine ⟨hmain, ?_, ?_⟩
  · intro rows
    rw [hmain]
    simp
  · intro sid range
    rw [hmain]
    simp

/-- Witness for C10 at concrete oracles that accept every request. -/
theorem create_workout_summary_not_atomic_witness :
    Sheets.create_workout_summary (fun _ _ => Except.ok ()) (fun _ _ _ => Except.ok ())
        "sid123" =
      ([Sheets.SheetsCall.batch "sid123"
          [Sheets.BatchReq.addSheet "Summary" { rowCount := 100, columnCount := 10 }],
        Sheets.SheetsCall.update "sid123" "Summary!A1:E4" Sheets.summary_headers],
       Except.error Sheets.coroutineLenErr) :=
  (create_workout_summary_not_atomic
    (fun _ _ => Except.ok ()) (fun _ _ _ => Except.ok ()) "sid123" rfl rfl).1

/-- A filtered-then-mapped sum equals the pointwise sum in which rows whose
field fails the guard contribute `0`. -/
theorem sumDigitField_eq_map_sum (l : List (List String)) (i : Nat) :
    Sheets.sumDigitField l i
      = (l.map (fun w => if Sheets.pyIsDigit (Sheets.cellAt w i)
          then Sheets.floatOfDigits (Sheets.cellAt w i) else 0)).sum := by
  unfold Sheets.sumDigitField
  induction l with
  | nil => simp
  | cons a t ih =>
    cases h : Sheets.pyIsDigit (Sheets.cellAt a i) <;>
      simp [List.filter_cons, h, ih]

/-- C1: the summary aggregation includes a row's numeric field (duration at
index 2 and calories at index 3 for workouts; calories, protein, carbs, fat
at indices 2-5 for nutrition) in the totals and the average numerators if
and only if that field passes `pyIsDigit` (a plain non-negative integer
string; otherwise the row contributes `0`), and every average is zero when
the corresponding history is empty.  (Rows are assumed at least as long as
the indices used, per the fixed column schemas.) -/
theorem create_workout_summary_aggregation
    (workouts nutrition : List (List String))
    (hw : ∀ w ∈ workouts, 4 ≤ w.length)
    (hn : ∀ n ∈ nutrition, 6 ≤ n.length) :
    ((Sheets.workoutStats workouts).total_duration
        = (workouts.map (fun w => if Sheets.pyIsDigit (Sheets.cellAt w 2)
            then Sheets.floatOfDigits (Sheets.cellAt w 2) else 0)).sum) ∧
    ((Sheets.workoutStats workouts).total_calories
        = (workouts.map (fun w => if Sheets.pyIsDigit (Sheets.cellAt w 3)
            then Sheets.floatOfDigits (Sheets.cellAt w 3) else 0)).sum) ∧
    ((Sheets.nutritionStats nutrition).total_nutrition_calories
        = (nutrition.map (fun n => if Sheets.pyIsDigit (Sheets.cellAt n 2)
            then Sheets.floatOfDigits (Sheets.cellAt n 2) else 0)).sum) ∧
    (workouts ≠ [] →
      (Sheets.workoutStats workouts).avg_duration
          = (workouts.map (fun w => if Sheets.pyIsDigit (Sheets.cellAt w 2)
              then Sheets.floatOfDigits (Sheets.cellAt w 2) else 0)).sum
            / (workouts.length : Rat) ∧
      (Sheets.workoutStats workouts).avg_calories
          = (workouts.map (fun w => if Sheets.pyIsDigit (Sheets.cellAt w 3)
              then Sheets.floatOfDigits (Sheets.cellAt w 3) else 0)).sum
            / (workouts.length : Rat)) ∧
    (nutrition ≠ [] →
      (Sheets.nutritionStats nutrition).avg_protein
          = (nutrition.map (fun n => if Sheets.pyIsDigit (Sheets.cellAt n 3)
              then Sheets.floatOfDigits (Sheets.cellAt n 3) else 0)).sum
            / (nutrition.length : Rat) ∧
      (Sheets.nutritionStats nutrition).avg_carbs
          = (nutrition.map (fun n => if Sheets.pyIsDigit (Sheets.cellAt n 4)
              then Sheets.floatOfDigits (Sheets.cellAt n 4) else 0)).sum
            / (nutrition.length : Rat) ∧
      (Sheets.nutritionStats nutrition).avg_fat
          = (nutrition.map (fun n => if Sheets.pyIsDigit (Sheets.cellAt n 5)
              then Sheets.floatOfDigits (Sheets.cellAt n 5) else 0)).sum
            / (nutrition.length : Rat)) ∧
    (workouts = [] →
      (Sheets.workoutStats workouts).avg_duration = 0 ∧
      (Sheets.workoutStats workouts).avg_calories = 0) ∧
    (nutrition = [] →
      (Sheets.nutritionStats nutrition).avg_protein = 0 ∧
      (Sheets.nutritionStats nutrition).avg_carbs = 0 ∧
      (Sheets.nutritionStats nutrition).avg_fat = 0) := by
  refine ⟨?_, ?_, ?_, ?_, ?_, ?_, ?_⟩
  · simp [Sheets.workoutStats, sumDigitField_eq_map_sum]
  · simp [Sheets.workoutStats, sumDigitField_eq_map_sum]
  · simp [Sheets.nutritionStats, sumDigitField_eq_map_sum]
  · intro h
    have hpos : 0 < workouts.length := List.length_pos.mpr h
    constructor <;>
      simp [Sheets.workoutStats, sumDigitField_eq_map_sum, hpos]
  · intro h
    have hpos : 0 < nutrition.length := List.length_pos.mpr h
    refine ⟨?_, ?_, ?_⟩ <;>
      simp [Sheets.nutritionStats, sumDigitField_eq_map_sum, hpos]
  · intro h
    subst h
    constructor <;> simp [Sheets.workoutStats]
  · intro h
    subst h
    refine ⟨?_, ?_, ?_⟩ <;> simp [Sheets.nutritionStats]

/-- Witness for C1 at a concrete pair of histories in which one workout row
carries `"12.5"` and `"n/a"` in its numeric fields (contributing nothing). -/
theorem create_workout_summary_aggregation_witness :
    ((Sheets.workoutStats [["2024-01-01", "Run", "30", "250", "ok"],
        ["2024-01-02", "Swim", "12.5", "n/a", ""]]).total_duration
        = ([["2024-01-01", "Run", "30", "250", "ok"],
            ["2024-01-02", "Swim", "12.5", "n/a", ""]].map
            (fun w => if Sheets.pyIsDigit (Sheets.cellAt w 2)
              then Sheets.floatOfDigits (Sheets.cellAt w 2) else 0)).sum) ∧
    ((Sheets.workoutStats [["2024-01-01", "Run", "30", "250", "ok"],
        ["2024-01-02", "Swim", "12.5", "n/a", ""]]).total_calories
        = ([["2024-01-01", "Run", "30", "250", "ok"],
            ["2024-01-02", "Swim", "12.5", "n/a", ""]].map
            (fun w => if Sheets.pyIsDigit (Sheets.cellAt w 3)
              then Sheets.floatOfDigits (Sheets.cellAt w 3) else 0)).sum) ∧
    ((Sheets.nutritionStats ([] : List (List String))).total_nutrition_calories
        = (([] : List (List String)).map
            (fun n => if Sheets.pyIsDigit (Sheets.cellAt n 2)
              then Sheets.floatOfDigits (Sheets.cellAt n 2) else 0)).sum) ∧
    ([["2024-01-01", "Run", "30", "250", "ok"],
      ["2024-01-02", "Swim", "12.5", "n/a", ""]] ≠ ([] : List (List String)) →
      (Sheets.workoutStats [["2024-01-01", "Run", "30", "250", "ok"],
          ["2024-01-02", "Swim", "12.5", "n/a", ""]]).avg_duration
          = ([["2024-01-01", "Run", "30", "250", "ok"],
              ["2024-01-02", "Swim", "12.5", "n/a", ""]].map
              (fun w => if Sheets.pyIsDigit (Sheets.cellAt w 2)
                then Sheets.floatOfDigits (Sheets.cellAt w 2) else 0)).sum
            / (([["2024-01-01", "Run", "30", "250", "ok"],
                 ["2024-01-02", "Swim", "12.5", "n/a", ""]] : List (List String)).length : Rat) ∧
      (Sheets.workoutStats [["2024-01-01", "Run", "30", "250", "ok"],
          ["2024-01-02", "Swim", "12.5", "n/a", ""]]).avg_calories
          = ([["2024-01-01", "Run", "30", "250", "ok"],
              ["2024-01-02", "Swim", "12.5", "n/a", ""]].map
              (fun w => if Sheets.pyIsDigit (Sheets.cellAt w 3)
                then Sheets.floatOfDigits (Sheets.cellAt w 3) else 0)).sum
            / (([["2024-01-01", "Run", "30", "250", "ok"],
                 ["2024-01-02", "Swim", "12.5", "n/a", ""]] : List (List String)).length : Rat)) ∧
    (([] : List (List String)) ≠ [] →
      (Sheets.nutritionStats ([] : List (List String))).avg_protein
          = (([] : List (List String)).map
              (fun n => if Sheets.pyIsDigit (Sheets.cellAt n 3)
                then Sheets.floatOfDigits (Sheets.cellAt n 3) else 0)).sum
            / ((([] : List (List String))).length : Rat) ∧
      (Sheets.nutritionStats ([] : List (List String))).avg_carbs
          = (([] : List (List String)).map
              (fun n => if Sheets.pyIsDigit (Sheets.cellAt n 4)
                then Sheets.floatOfDigits (Sheets.cellAt n 4) else 0)).sum
            / ((([] : List (List String))).length : Rat) ∧
      (Sheets.nutritionStats ([] : List (List String))).avg_fat
          = (([] : List (List String)).map
              (fun n => if Sheets.pyIsDigit (Sheets.cellAt n 5)
                then Sheets.floatOfDigits (Sheets.cellAt n 5) else 0)).sum
            / ((([] : List (List String))).length : Rat)) ∧
    ([["2024-01-01", "Run", "30", "250", "ok"],
      ["2024-01-02", "Swim", "12.5", "n/a", ""]] = ([] : List (List String)) →
      (Sheets.workoutStats [["2024-01-01", "Run", "30", "250", "ok"],
          ["2024-01-02", "Swim", "12.5", "n/a", ""]]).avg_duration = 0 ∧
      (Sheets.workoutStats [["2024-01-01", "Run", "30", "250", "ok"],
          ["2024-01-02", "Swim", "12.5", "n/a", ""]]).avg_calories = 0) ∧
    (([] : List (List String)) = [] →
      (Sheets.nutritionStats ([] : List (List String))).avg_protein = 0 ∧
      (Sheets.nutritionStats ([] : List (List String))).avg_carbs = 0 ∧
      (Sheets.nutritionStats ([] : List (List String))).avg_fat = 0) :=
  create_workout_summary_aggregation
    [["2024-01-01", "Run", "30", "250", "ok"], ["2024-01-02", "Swim", "12.5", "n/a", ""]]
    ([] : List (List String)) (by decide) (by decide)

/-- Two strings whose first characters differ are different. -/
theorem ne_of_head_ne (a b : String) (h : a.data.head? ≠ b.data.head?) : a ≠ b :=
  fun he => h (congrArg (fun s => s.data.head?) he)

/-- The `Route N:` header of a block appears nowhere in the block's tail:
every other line starts with a different character (`D`, `S`, `-`, or is
empty). -/
theorem header_notin_block_tail (i : Nat) (r : Maps.FmtRoute) :
    ("Route " ++ toString (i + 1) ++ ":") ∉
      (("Distance: " ++ r.distance) ::
       ("Duration: " ++ r.duration) ::
       "Steps:" ::
       (r.steps.map (fun s => "- " ++ s) ++ [""])) := by
  intro hmem
  have hR : (("Route ".data ++ (toString (i + 1)).data) ++ ":".data).head? = some 'R' := rfl
  rcases List.mem_cons.mp hmem with he | hmem
  · exact absurd he.symm (by
      apply ne_of_head_ne
      rw [String.data_append, String.data_append, String.data_append]
      rw [show ("Distance: ".data ++ r.distance.data).head? = some 'D' from rfl, hR]
      decide)
  rcases List.mem_cons.mp hmem with he | hmem
  · exact absurd he.symm (by
      apply ne_of_head_ne
      rw [String.data_append, String.data_append, String.data_append]
      rw [show ("Duration: ".data ++ r.duration.data).head? = some 'D' from rfl, hR]
      decide)
  rcases List.mem_cons.mp hmem with he | hmem
  · exact absurd he.symm (by
      apply ne_of_head_ne
      rw [String.data_append, String.data_append]
      rw [show ("Steps:" : String).data.head? = some 'S' from rfl, hR]
      decide)
  rcases List.mem_append.mp hmem with hmem | hmem
  · obtain ⟨s, _, he⟩ := List.mem_map.mp hmem
    exact absurd he (by
      apply ne_of_head_ne
      rw [String.data_append, String.data_append, String.data_append]
      rw [show ("- ".data ++ s.data).head? = some '-' from rfl, hR]
      decide)
  · rcases List.mem_singleton.mp hmem with he
    exact absurd he.symm (by
      apply ne_of_head_ne
      rw [String.data_append, String.data_append]
      rw [show ("" : String).data.head? = none from rfl, hR]
      decide)

/-- When every route has a first leg with at least one step, the reshaping
loop of `get_directions` succeeds and yields one formatted route per input
route, each with a non-empty step list. -/
theorem mapM_extractRoute_ok (result : List Maps.RouteJson)
    (h : ∀ r ∈ result, ∃ leg rest, r.legs = leg :: rest ∧ leg.steps ≠ []) :
    ∃ fr : List Maps.FmtRoute,
      result.mapM Maps.extractRoute = Except.ok fr ∧
      fr.length = result.length ∧
      ∀ f ∈ fr, f.steps ≠ [] := by
  induction result with
  | nil => exact ⟨[], rfl, rfl, by simp⟩
  | cons r t ih =>
    obtain ⟨leg, rest, hlegs, hsteps⟩ := h r (by simp)
    obtain ⟨fr, hfr, hlen, hne⟩ := ih (fun x hx => h x (by simp [hx]))
    refine ⟨{ distance := leg.distance.text
              duration := leg.duration.text
              steps := leg.steps.map (fun s => s.html_instructions) } :: fr,
            ?_, by simp [hlen], ?_⟩
    · rw [← List.mapM'_eq_mapM] at hfr ⊢
      rw [List.mapM'_cons]
      simp [Maps.extractRoute, hlegs, hfr]
      rfl
    · intro f hf
      rcases List.mem_cons.mp hf with hf | hf
      · subst hf
        simp [hsteps]
      · exact hne f hf

/-- C8 (amended): for every directions result with at least one route in
which every route has a first leg with at least one step, the output of
`get_directions` is the newline-join of one block per route, in order; the
block for route `i` (zero-based) is headed by the line `Route i+1:` (which
occurs nowhere else in the block) and contains a non-empty distance line, a
non-empty duration line, and at least one step line. -/
theorem get_directions_route_blocks (result : List Maps.RouteJson)
    (hne : result ≠ [])
    (h : ∀ r ∈ result, ∃ leg rest, r.legs = leg :: rest ∧ leg.steps ≠ []) :
    ∃ fr : List Maps.FmtRoute,
      result.mapM Maps.extractRoute = Except.ok fr ∧
      fr.length = result.length ∧
      Maps.get_directions (Except.ok result)
        = "\n".intercalate ((fr.enum.map (fun p => Maps.routeLines p.1 p.2)).flatten) ∧
      ∀ p ∈ fr.enum,
        (Maps.routeLines p.1 p.2).head? = some ("Route " ++ toString (p.1 + 1) ++ ":") ∧
        ("Route " ++ toString (p.1 + 1) ++ ":") ∉ (Maps.routeLines p.1 p.2).tail ∧
        ("Distance: " ++ p.2.distance) ∈ Maps.routeLines p.1 p.2 ∧
        ("Distance: " ++ p.2.distance) ≠ "" ∧
        ("Duration: " ++ p.2.duration) ∈ Maps.routeLines p.1 p.2 ∧
        ("Duration: " ++ p.2.duration) ≠ "" ∧
        ∃ s ∈ p.2.steps, ("- " ++ s) ∈ Maps.routeLines p.1 p.2 := by
  obtain ⟨fr, hfr, hlen, hsteps⟩ := mapM_extractRoute_ok result h
  have hemp : result.isEmpty = false := by
    cases result
    · exact absurd rfl hne
    · rfl
  refine ⟨fr, hfr, hlen, ?_, ?_⟩
  · have hloop : List.mapM.loop Maps.extractRoute result [] = Except.ok fr := hfr
    simp [Maps.get_directions, hemp, hloop]
  · rintro ⟨i, r⟩ hp
    have hget : fr[i]? = some r := List.mk_mem_enum_iff_getElem?.mp hp
    have hmemfr : r ∈ fr := List.getElem?_mem hget
    have hst : r.steps ≠ [] := hsteps r hmemfr
    refine ⟨rfl, header_notin_block_tail i r, ?_, ?_, ?_, ?_, ?_⟩
    · simp [Maps.routeLines]
    · apply ne_of_head_ne
      rw [String.data_append]
      rw [show ("Distance: ".data ++ r.distance.data).head? = some 'D' from rfl]
      decide
    · simp [Maps.routeLines]
    · apply ne_of_head_ne
      rw [String.data_append]
      rw [show ("Duration: ".data ++ r.duration.data).head? = some 'D' from rfl]
      decide
    · cases hcase : r.steps with
      | nil => exact absurd hcase hst
      | cons s rest =>
        exact ⟨s, by simp [hcase], by simp [Maps.routeLines, hcase]⟩

/-- A directions response with one route whose single leg has no steps. -/
def routeNoSteps : Maps.RouteJson :=
  { legs := [{ steps := []
               distance := { text := "1 km" }
               duration := { text := "5 min" } }] }

/-- A directions response with one route whose single leg has one step. -/
def routeOneStep : Maps.RouteJson :=
  { legs := [{ steps := [{ html_instructions := "Go north" }]
               distance := { text := "2 km" }
               duration := { text := "9 min" } }] }

/-- C8 counterexample: for a response with exactly one route whose first
leg has no steps, the formatted output contains no step line at all (no
occurrence of `"- "` anywhere in the output), refuting the claim that each
block contains at least one step line. -/
theorem get_directions_no_step_line_counterexample :
    Maps.get_directions (Except.ok [routeNoSteps])
        = "Route 1:" ++ "\n" ++ "Distance: 1 km" ++ "\n" ++ "Duration: 5 min"
          ++ "\n" ++ "Steps:" ++ "\n" ∧
    Sheets.pyInStr "- " (Maps.get_directions (Except.ok [routeNoSteps])) = false ∧
    ([routeNoSteps] : List Maps.RouteJson).length = 1 := by
  refine ⟨by decide, by decide, rfl⟩

/-- Witness for C8 (amended) at a concrete one-route response whose first
leg has one step. -/
theorem get_directions_route_blocks_witness :
    ∃ fr : List Maps.FmtRoute,
      ([routeOneStep] : List Maps.RouteJson).mapM Maps.extractRoute = Except.ok fr ∧
      fr.length = ([routeOneStep] : List Maps.RouteJson).length ∧
      Maps.get_directions (Except.ok [routeOneStep])
        = "\n".intercalate ((fr.enum.map (fun p => Maps.routeLines p.1 p.2)).flatten) ∧
      ∀ p ∈ fr.enum,
        (Maps.routeLines p.1 p.2).head? = some ("Route " ++ toString (p.1 + 1) ++ ":") ∧
        ("Route " ++ toString (p.1 + 1) ++ ":") ∉ (Maps.routeLines p.1 p.2).tail ∧
        ("Distance: " ++ p.2.distance) ∈ Maps.routeLines p.1 p.2 ∧
        ("Distance: " ++ p.2.distance) ≠ "" ∧
        ("Duration: " ++ p.2.duration) ∈ Maps.routeLines p.1 p.2 ∧
        ("Duration: " ++ p.2.duration) ≠ "" ∧
        ∃ s ∈ p.2.steps, ("- " ++ s) ∈ Maps.routeLines p.1 p.2 :=
  get_directions_route_blocks [routeOneStep] (by decide)
    (fun r hr => by
      rcases List.mem_singleton.mp hr with rfl
      exact ⟨_, _, rfl, by decide⟩)
